import Mathlib

/-!
Verification development for the PDF-chatbot RAG core (`backend/app/rag.py`).

Python strings are modelled as `String` (with `.data : List Char` for the
character-level operations of the casual-intent classifier); exceptions are
modelled with `Except`/result pairs; the process-global mutable state
(`vector_store`, `retriever`, `llm`, `conversation_history`,
`uploaded_documents`) is modelled as an explicit `RagState` threaded through
the operations.  External collaborators (PyMuPDF extraction, the langchain
text splitter, the Chroma similarity search, the Ollama LLM, tiktoken, the
wall clock, and float rendering) are boundary functions collected in `Env`.
-/

namespace Rag

set_option maxRecDepth 16384

/-- One page-level document segment, as produced by `load_pdf_with_pymupdf`
(`page_content` plus the metadata dict keys assigned there). -/
structure Doc where
  page_content : String
  page : Nat
  source : String
  filename : String
  upload_time : String
deriving DecidableEq, Repr

/-- One conversation turn, as appended by `add_to_history`
(`role`, `content`, `timestamp`). -/
structure Turn where
  role : String
  content : String
  timestamp : String
deriving DecidableEq, Repr

/-- The LLM boundary: invoking the chain on the rendered prompt either
returns an answer or raises, modelled as `Except` carrying `str(e)`. -/
def LLMFun : Type := String → Except String String

/-- The process-global mutable state of `rag.py`:
`vector_store` (None or the list of indexed chunks, in insertion order),
`retriever` (None or configured, modelled as `Bool`), `llm`,
`conversation_history`, and `uploaded_documents`
(a dict `filename → chunk_count`, modelled as an insertion-ordered
association list). -/
structure RagState where
  vector_store : Option (List Doc)
  retriever : Bool
  llm : Option LLMFun
  conversation_history : List Turn
  uploaded_documents : List (String × Nat)

/-- External collaborators used by the core, modelled as boundary functions:
`split` is the langchain `RecursiveCharacterTextSplitter`, `ollama` the
result of `init_ollama()`, `now` the wall clock rendered by
`datetime.now().isoformat()`, `search` the Chroma
`similarity_search_with_relevance_scores` on the stored chunks (query and
optional filename filter), `tok` the tiktoken `count_tokens`, `latency_ms`
the elapsed-time measurement, `model_name` the `OLLAMA_MODEL` env var, and
`fmtScore` the float rendering used in citations. -/
structure Env where
  split : List Doc → List Doc
  ollama : Option LLMFun
  now : String
  search : List Doc → String → Option String → List (Doc × Rat)
  tok : String → Nat
  latency_ms : Nat
  model_name : String
  fmtScore : Rat → String

-- ============== CONFIGURATION (rag.py lines 20-23) ==============

def CONFIDENCE_THRESHOLD : Rat := 0

def MAX_CONVERSATION_HISTORY : Nat := 10

def CHUNK_SIZE : Nat := 1000

def CHUNK_OVERLAP : Nat := 100

-- ============== CHARACTER-LEVEL STRING OPERATIONS ==============

/-- ASCII case mapping of Python `str.lower`, written as an explicit table
(non-ASCII characters are left unchanged; the repository's pattern lists are
all ASCII). -/
def lowerChar (c : Char) : Char :=
  match c with
  | 'A' => 'a' | 'B' => 'b' | 'C' => 'c' | 'D' => 'd' | 'E' => 'e'
  | 'F' => 'f' | 'G' => 'g' | 'H' => 'h' | 'I' => 'i' | 'J' => 'j'
  | 'K' => 'k' | 'L' => 'l' | 'M' => 'm' | 'N' => 'n' | 'O' => 'o'
  | 'P' => 'p' | 'Q' => 'q' | 'R' => 'r' | 'S' => 's' | 'T' => 't'
  | 'U' => 'u' | 'V' => 'v' | 'W' => 'w' | 'X' => 'x' | 'Y' => 'y'
  | 'Z' => 'z'
  | c => c

/-- Python `str.lower` on the character list of a string. -/
def lowerL (s : List Char) : List Char := s.map lowerChar

/-- The code points CPython treats as whitespace in `str.isspace`,
`str.split()` with no argument, and `str.strip()` with no argument
(`Py_UNICODE_ISSPACE`), as inclusive code-point ranges. -/
def pySpaceRanges : List (Nat × Nat) :=
  [(0x9, 0xD), (0x1C, 0x20), (0x85, 0x85), (0xA0, 0xA0), (0x1680, 0x1680),
   (0x2000, 0x200A), (0x2028, 0x2029), (0x202F, 0x202F), (0x205F, 0x205F),
   (0x3000, 0x3000)]

/-- Python whitespace on a single character (`str.isspace` semantics, the
character class used by `str.split()` and `str.strip()`). -/
def pyIsSpace (c : Char) : Bool :=
  pySpaceRanges.any (fun r => r.1 ≤ c.toNat && c.toNat ≤ r.2)

/-- The code points on which CPython `str.isdigit` returns `True` (Unicode
`Numeric_Type` `Decimal` or `Digit`, from the unicodedata table of CPython
3.11), as inclusive code-point ranges. -/
def pyDigitRanges : List (Nat × Nat) :=
  [(0x30, 0x39), (0xB2, 0xB3), (0xB9, 0xB9), (0x660, 0x669), (0x6F0, 0x6F9),
   (0x7C0, 0x7C9), (0x966, 0x96F), (0x9E6, 0x9EF), (0xA66, 0xA6F),
   (0xAE6, 0xAEF), (0xB66, 0xB6F), (0xBE6, 0xBEF), (0xC66, 0xC6F),
   (0xCE6, 0xCEF), (0xD66, 0xD6F), (0xDE6, 0xDEF), (0xE50, 0xE59),
   (0xED0, 0xED9), (0xF20, 0xF29), (0x1040, 0x1049), (0x1090, 0x1099),
   (0x1369, 0x1371), (0x17E0, 0x17E9), (0x1810, 0x1819), (0x1946, 0x194F),
   (0x19D0, 0x19DA), (0x1A80, 0x1A89), (0x1A90, 0x1A99), (0x1B50, 0x1B59),
   (0x1BB0, 0x1BB9), (0x1C40, 0x1C49), (0x1C50, 0x1C59), (0x2070, 0x2070),
   (0x2074, 0x2079), (0x2080, 0x2089), (0x2460, 0x2468), (0x2474, 0x247C),
   (0x2488, 0x2490), (0x24EA, 0x24EA), (0x24F5, 0x24FD), (0x24FF, 0x24FF),
   (0x2776, 0x277E), (0x2780, 0x2788), (0x278A, 0x2792), (0xA620, 0xA629),
   (0xA8D0, 0xA8D9), (0xA900, 0xA909), (0xA9D0, 0xA9D9), (0xA9F0, 0xA9F9),
   (0xAA50, 0xAA59), (0xABF0, 0xABF9), (0xFF10, 0xFF19), (0x104A0, 0x104A9),
   (0x10A40, 0x10A43), (0x10D30, 0x10D39), (0x10E60, 0x10E68),
   (0x11052, 0x1105A), (0x11066, 0x1106F), (0x110F0, 0x110F9),
   (0x11136, 0x1113F), (0x111D0, 0x111D9), (0x112F0, 0x112F9),
   (0x11450, 0x11459), (0x114D0, 0x114D9), (0x11650, 0x11659),
   (0x116C0, 0x116C9), (0x11730, 0x11739), (0x118E0, 0x118E9),
   (0x11950, 0x11959), (0x11C50, 0x11C59), (0x11D50, 0x11D59),
   (0x11DA0, 0x11DA9), (0x16A60, 0x16A69), (0x16AC0, 0x16AC9),
   (0x16B50, 0x16B59), (0x1D7CE, 0x1D7FF), (0x1E140, 0x1E149),
   (0x1E2F0, 0x1E2F9), (0x1E950, 0x1E959), (0x1F100, 0x1F10A),
   (0x1FBF0, 0x1FBF9)]

/-- Python `str.isdigit` on a single character. -/
def pyIsDigit (c : Char) : Bool :=
  pyDigitRanges.any (fun r => r.1 ≤ c.toNat && c.toNat ≤ r.2)

/-- Helper for Python `str.strip`: remove trailing whitespace characters. -/
def dropTrailingWs : List Char → List Char
  | [] => []
  | c :: cs =>
    if (dropTrailingWs cs).isEmpty && pyIsSpace c then []
    else c :: dropTrailingWs cs

/-- Python `str.strip` (no argument): remove leading and trailing
whitespace. -/
def stripL (s : List Char) : List Char :=
  dropTrailingWs (s.dropWhile pyIsSpace)

/-- Python `str.startswith` on character lists. -/
def startsWith : List Char → List Char → Bool
  | [], _ => true
  | _ :: _, [] => false
  | a :: ps, b :: ss => a == b && startsWith ps ss

/-- Python substring containment (`pattern in text`) on character lists. -/
def containsSub : List Char → List Char → Bool
  | pat, [] => pat.isEmpty
  | pat, c :: cs => startsWith pat (c :: cs) || containsSub pat cs

/-- Worker for Python `str.split()` (whitespace split, empty tokens
dropped); `acc` holds the characters of the word being read, reversed. -/
def splitWsAux : List Char → List Char → List (List Char)
  | [], acc => if acc.isEmpty then [] else [acc.reverse]
  | c :: cs, acc =>
    if pyIsSpace c then
      if acc.isEmpty then splitWsAux cs [] else acc.reverse :: splitWsAux cs []
    else splitWsAux cs (c :: acc)

/-- Python `str.split()` with no separator argument. -/
def splitWs (s : List Char) : List (List Char) := splitWsAux s []

-- ============== GREETING/CASUAL CHAT DETECTION (rag.py 26-85) ==============

def GREETING_PATTERNS : List (List Char) :=
  ["hi".data, "hello".data, "hey".data, "good morning".data,
   "good afternoon".data, "good evening".data, "howdy".data,
   "greetings".data, "sup".data, "what's up".data, "yo".data,
   "hola".data, "namaste".data]

def CASUAL_PATTERNS : List (List Char) :=
  ["how are you".data, "how's it going".data, "what can you do".data,
   "who are you".data, "help".data, "thank you".data, "thanks".data,
   "bye".data, "goodbye".data, "see you".data]

/-- `is_greeting_or_casual` (rag.py 36-50): greeting match (exact or prefix
followed by space/bang/comma), casual substring match, or the short-message
fallback (at most 2 whitespace tokens and no digit). -/
def is_greeting_or_casual (text : String) : Bool :=
  let text_lower := stripL (lowerL text.data)
  GREETING_PATTERNS.any (fun pattern =>
      text_lower == pattern
      || startsWith (pattern ++ " ".data) text_lower
      || startsWith (pattern ++ "!".data) text_lower
      || startsWith (pattern ++ ",".data) text_lower)
  || CASUAL_PATTERNS.any (fun pattern => containsSub pattern text_lower)
  || ((splitWs text_lower).length ≤ 2
      && !(text_lower.any pyIsDigit))

def greeting_reply : String :=
  "Hello! 👋 I'm your PDF assistant. Upload a PDF document and ask me anything about its contents. How can I help you today?"

def how_are_you_reply : String :=
  "I'm doing great, thank you for asking! 😊 I'm ready to help you with any questions about your PDF documents."

def capabilities_reply : String :=
  "I'm a PDF RAG Chatbot! Here's what I can do:\n\n📄 **Upload PDFs** - Click the upload button to add documents\n❓ **Ask Questions** - I'll find answers from your documents\n📍 **Citations** - I show you exactly where I found the information\n📊 **Dashboard** - View metrics and usage stats\n\nUpload a PDF to get started!"

def thanks_reply : String :=
  "You're welcome! 😊 Feel free to ask me anything else about your documents."

def goodbye_reply : String :=
  "Goodbye! 👋 Come back anytime you need help with your PDFs!"

def default_casual_reply : String :=
  "I'm here to help! Upload a PDF document and ask me questions about its contents. What would you like to know?"

/-- `get_friendly_response` (rag.py 52-85): canned reply chosen by keyword
priority (greeting, then "how are you", then capabilities/help, then thanks,
then goodbye, then the generic fallback). -/
def get_friendly_response (text : String) : String :=
  let text_lower := stripL (lowerL text.data)
  if GREETING_PATTERNS.any (fun pattern =>
      text_lower == pattern || startsWith pattern text_lower) then
    greeting_reply
  else if containsSub "how are you".data text_lower
      || containsSub "how's it going".data text_lower then
    how_are_you_reply
  else if containsSub "what can you do".data text_lower
      || containsSub "help".data text_lower
      || containsSub "who are you".data text_lower then
    capabilities_reply
  else if containsSub "thank".data text_lower then
    thanks_reply
  else if containsSub "bye".data text_lower
      || containsSub "goodbye".data text_lower
      || containsSub "see you".data text_lower then
    goodbye_reply
  else
    default_casual_reply

-- ============== CONVERSATION MEMORY (rag.py 98-124) ==============

/-- `add_to_history` (rag.py 98-108): append a timestamped turn, then keep
only the last `MAX_CONVERSATION_HISTORY * 2` entries (the Python slice
`history[-20:]` is `drop (length - 20)`). -/
def add_to_history (history : List Turn) (role content now : String) : List Turn :=
  if (history ++ [(⟨role, content, now⟩ : Turn)]).length
      > MAX_CONVERSATION_HISTORY * 2 then
    (history ++ [(⟨role, content, now⟩ : Turn)]).drop
      ((history ++ [(⟨role, content, now⟩ : Turn)]).length
        - MAX_CONVERSATION_HISTORY * 2)
  else history ++ [(⟨role, content, now⟩ : Turn)]

/-- `get_conversation_context` (rag.py 110-119): formatted transcript of the
last 6 turns, each content truncated to 200 characters. -/
def get_conversation_context (history : List Turn) : String :=
  if history.isEmpty then ""
  else
    "Previous conversation:\n"
    ++ String.join ((history.drop (history.length - 6)).map (fun msg =>
        (if msg.role == "user" then "User" else "Assistant")
        ++ ": " ++ msg.content.take 200 ++ "\n"))

/-- `clear_conversation` (rag.py 121-124). -/
def clear_conversation (_history : List Turn) : List Turn := []

-- ============== PDF LOADING (rag.py 127-156) ==============

/-- `format_docs` (rag.py 127-128). -/
def format_docs (docs : List Doc) : String :=
  String.intercalate "\n\n" (docs.map (fun doc => doc.page_content))

/-- `os.path.basename` for forward-slash paths: the suffix after the last
slash. -/
def basename (p : String) : String :=
  ⟨(p.data.reverse.takeWhile (fun c => c != '/')).reverse⟩

/-- `load_pdf_with_pymupdf` (rag.py 130-156).  The PyMuPDF boundary is the
`pages` argument: `none` models `fitz.open`/extraction raising (the
exception is caught and the empty list is returned), `some ps` the page
texts in page order.  Pages whose stripped text is empty are dropped;
`page` metadata keeps the original zero-based page number. -/
def load_pdf_with_pymupdf (pages : Option (List String)) (file_path : String)
    (now : String) : List Doc :=
  let filename := basename file_path
  match pages with
  | none => []
  | some ps =>
    ps.enum.filterMap (fun pr =>
      if (stripL pr.2.data).isEmpty then none
      else some ⟨pr.2, pr.1, file_path, filename, now⟩)

-- ============== INGESTION (rag.py 182-241) ==============

/-- Python dict assignment `d[k] = v` on an insertion-ordered association
list: overwrite in place if the key exists, else append. -/
def insertEntry (d : List (String × Nat)) (k : String) (v : Nat) :
    List (String × Nat) :=
  if d.any (fun p => p.1 == k) then
    d.map (fun p => if p.1 == k then (k, v) else p)
  else d ++ [(k, v)]

/-- `ingest_pdf` (rag.py 182-237): load pages, fail with the `ValueError`
message when no document was extracted, otherwise split (`env.split` is the
langchain splitter boundary), create or extend the vector store, set up the
retriever, initialize the LLM if absent (`env.ollama` is the
`init_ollama()` boundary), and record the batch size in
`uploaded_documents`.  The raised `ValueError` is the `Except.error`
component; in that case the state is returned unchanged. -/
def ingest_pdf (env : Env) (st : RagState) (file_path : String)
    (pages : Option (List String)) : RagState × Except String Nat :=
  let filename := basename file_path
  let documents := load_pdf_with_pymupdf pages file_path env.now
  if documents.isEmpty then
    (st, .error "Could not extract text from PDF. The file may be empty or corrupted.")
  else
    let texts := env.split documents
    let vector_store' := match st.vector_store with
      | none => some texts
      | some old => some (old ++ texts)
    let llm' := match st.llm with
      | none => env.ollama
      | some l => some l
    ({ st with
        vector_store := vector_store',
        retriever := true,
        llm := llm',
        uploaded_documents := insertEntry st.uploaded_documents filename texts.length },
     .ok texts.length)

/-- `get_uploaded_files` (rag.py 239-241). -/
def get_uploaded_files (st : RagState) : List (String × Nat) :=
  st.uploaded_documents

/-- `clear_knowledge_base` (rag.py 243-274): the ChromaDB collection
deletion and persist-directory removal are external filesystem effects,
both wrapped in `try/except` in the source, so the call always reaches the
state reset and returns `True`.  All state is reset except `llm` (the
source comment: "Reset all state except LLM (keep it initialized)"). -/
def clear_knowledge_base (st : RagState) : RagState × Bool :=
  ({ st with
      vector_store := none,
      retriever := false,
      uploaded_documents := [],
      conversation_history := [] }, true)

-- ============== RETRIEVAL (rag.py 277-299) ==============

/-- `retrieve_with_scores` (rag.py 277-299): empty results when the store is
uninitialized; otherwise the Chroma search boundary (`env.search`) is
queried with the `where` filter built from `filter_filename` (Python
truthiness: `None` and `""` both mean no filter). -/
def retrieve_with_scores (env : Env) (st : RagState) (question : String)
    (filter_filename : Option String) : List Doc × List Rat :=
  match st.vector_store with
  | none => ([], [])
  | some chunks =>
    let where_filter : Option String :=
      match filter_filename with
      | some f => if f == "" then none else some f
      | none => none
    let results := env.search chunks question where_filter
    (results.map Prod.fst, results.map Prod.snd)

-- ============== ANSWER GENERATION (rag.py 302-441) ==============

/-- The metadata dict returned by `get_answer`; each path populates a
different subset of keys, so every field is an `Option` with `none` for an
absent key. -/
structure Metadata where
  confidence : Option Rat
  avg_relevance : Option Rat
  tokens_input : Option Nat
  tokens_output : Option Nat
  tokens_total : Option Nat
  tokens_used : Option Nat
  latency_ms : Option Nat
  llm_used : Option Bool
  model : Option String
  is_casual : Option Bool
  error : Option String
deriving DecidableEq, Repr

/-- The metadata dict with no keys set. -/
def Metadata.base : Metadata :=
  ⟨none, none, none, none, none, none, none, none, none, none, none⟩

/-- The full result of one `get_answer` call: the returned triple, the
global state after the call, and a ghost flag recording whether
`retrieve_with_scores` was invoked (used to state "no retrieval is
performed"). -/
structure AnswerResult where
  answer : String
  citations : List String
  metadata : Metadata
  state : RagState
  queried_index : Bool

def upload_first_msg : String :=
  "👋 Please upload a PDF first! Click the upload button to add a document, then ask me questions about it."

/-- The truncated-context degraded answer used both when no LLM is
configured (rag.py 365) and when the LLM invocation raises (rag.py 434). -/
def fallback_answer (context : String) : String :=
  "Based on the document, here's the relevant content:\n\n"
  ++ context.take 1500 ++ "..."

/-- The prompt template of rag.py 385-398, rendered with the conversation
context, grounding context and question substituted for its placeholders. -/
def render_prompt (conversation_context context question : String) : String :=
  "You are a helpful assistant answering questions about documents.\n\n"
  ++ conversation_context
  ++ "\n\nBased ONLY on the following context from the documents, answer the question.\nBe concise and specific. Give a direct answer in 1-3 sentences.\nIf the answer is not in the context, say \"I cannot find this specific information in the uploaded documents.\"\n\nContext from documents:\n"
  ++ context
  ++ "\n\nQuestion: "
  ++ question
  ++ "\n\nAnswer:"

/-- Citation assembly (rag.py 346-352): one line per retrieved chunk with
filename, page, rendered relevance score (`env.fmtScore` is the float
formatting boundary) and a 150-character snippet with newlines collapsed. -/
def build_citations (env : Env) (docs : List Doc) (scores : List Rat) :
    List String :=
  docs.enum.map (fun pr =>
    let score := if pr.1 < scores.length then scores.getD pr.1 0 else 0
    let content_snippet := ((pr.2.page_content.take 150).replace "\n" " ") ++ "..."
    "[" ++ pr.2.filename ++ "] Page " ++ toString pr.2.page
      ++ " (relevance: " ++ env.fmtScore score ++ "): " ++ content_snippet)

/-- `get_answer` (rag.py 302-441).  Paths in source order: casual
short-circuit; uninitialized-store guidance; then retrieval followed by the
no-LLM fallback, the successful LLM invocation, or the `except` branch when
the invocation raises (`st.llm` applied to the rendered prompt models
`chain.invoke`). -/
def get_answer (env : Env) (st : RagState) (question : String)
    (filter_filename : Option String) (use_history : Bool) : AnswerResult :=
  if is_greeting_or_casual question then
    let friendly_response := get_friendly_response question
    let h1 := add_to_history st.conversation_history "user" question env.now
    let h2 := add_to_history h1 "assistant" friendly_response env.now
    { answer := friendly_response, citations := [],
      metadata := { Metadata.base with
        confidence := some 1,
        tokens_input := some (env.tok question),
        tokens_output := some (env.tok friendly_response),
        latency_ms := some env.latency_ms,
        is_casual := some true },
      state := { st with conversation_history := h2 },
      queried_index := false }
  else if st.vector_store.isNone then
    { answer := upload_first_msg, citations := [],
      metadata := { Metadata.base with
        confidence := some 0, tokens_used := some 0, latency_ms := some 0 },
      state := st, queried_index := false }
  else
    let h1 := add_to_history st.conversation_history "user" question env.now
    let res := retrieve_with_scores env st question filter_filename
    let docs := res.1
    let scores := res.2
    let avg_score : Rat :=
      if scores.isEmpty then 0 else scores.sum / (scores.length : Rat)
    let max_score : Rat :=
      if scores.isEmpty then 0 else (scores.max?).getD 0
    let citations := build_citations env docs scores
    let context := format_docs docs
    let input_tokens := env.tok (context ++ question)
    match st.llm with
    | none =>
      let answer := fallback_answer context
      let h2 := add_to_history h1 "assistant" answer env.now
      { answer := answer, citations := citations,
        metadata := { Metadata.base with
          confidence := some max_score, avg_relevance := some avg_score,
          tokens_input := some input_tokens,
          tokens_output := some (env.tok answer),
          latency_ms := some env.latency_ms, llm_used := some false },
        state := { st with conversation_history := h2 },
        queried_index := true }
    | some l =>
      let conversation_context :=
        if use_history then get_conversation_context h1 else ""
      match l (render_prompt conversation_context context question) with
      | .ok answer =>
        let h2 := add_to_history h1 "assistant" answer env.now
        { answer := answer, citations := citations,
          metadata := { Metadata.base with
            confidence := some max_score, avg_relevance := some avg_score,
            tokens_input := some input_tokens,
            tokens_output := some (env.tok answer),
            tokens_total := some (input_tokens + env.tok answer),
            latency_ms := some env.latency_ms, llm_used := some true,
            model := some env.model_name },
          state := { st with conversation_history := h2 },
          queried_index := true }
      | .error e =>
        let answer := fallback_answer context
        let h2 := add_to_history h1 "assistant" answer env.now
        { answer := answer, citations := citations,
          metadata := { Metadata.base with
            confidence := some max_score, error := some e,
            latency_ms := some env.latency_ms },
          state := { st with conversation_history := h2 },
          queried_index := true }

-- ============== HELPER LEMMAS ==============

theorem pyIsSpace_lowerChar (c : Char) :
    pyIsSpace (lowerChar c) = pyIsSpace c := by
  unfold lowerChar
  split <;> rfl

theorem pyIsDigit_lowerChar (c : Char) :
    pyIsDigit (lowerChar c) = pyIsDigit c := by
  unfold lowerChar
  split <;> rfl

theorem splitWsAux_length_map_lowerChar (s : List Char) :
    ∀ a b : List Char, a.isEmpty = b.isEmpty →
    (splitWsAux (s.map lowerChar) a).length = (splitWsAux s b).length := by
  induction s with
  | nil =>
    intro a b h
    simp only [List.map_nil, splitWsAux, h]
    split <;> rfl
  | cons c cs ih =>
    intro a b h
    simp only [List.map_cons, splitWsAux, pyIsSpace_lowerChar]
    by_cases hw : pyIsSpace c = true
    · by_cases hb : b.isEmpty = true
      · simp [hw, h, hb, ih [] [] rfl]
      · have hb' : b.isEmpty = false := by simpa [Bool.not_eq_true] using hb
        simp [hw, h, hb', ih [] [] rfl]
    · have hw' : pyIsSpace c = false := by simpa [Bool.not_eq_true] using hw
      simp only [hw', Bool.false_eq_true, if_false]
      exact ih (lowerChar c :: a) (c :: b) rfl

theorem splitWsAux_dropWhile_ws (s : List Char) :
    splitWsAux (s.dropWhile pyIsSpace) [] = splitWsAux s [] := by
  induction s with
  | nil => rfl
  | cons c cs ih =>
    by_cases hw : pyIsSpace c
    · rw [List.dropWhile_cons_of_pos (by simpa using hw)]
      rw [ih]
      simp [splitWsAux, hw]
    · rw [List.dropWhile_cons_of_neg (by simpa using hw)]

theorem all_ws_of_dropTrailingWs_eq_nil (s : List Char)
    (h : dropTrailingWs s = []) : ∀ c ∈ s, pyIsSpace c := by
  induction s with
  | nil => simp
  | cons c cs ih =>
    unfold dropTrailingWs at h
    by_cases h1 : (dropTrailingWs cs).isEmpty = true
    · by_cases h2 : pyIsSpace c = true
      · intro x hx
        rcases List.mem_cons.mp hx with hx | hx
        · exact hx ▸ h2
        · exact ih (List.isEmpty_iff.mp h1) x hx
      · have h2' : pyIsSpace c = false := by simpa [Bool.not_eq_true] using h2
        simp [h2'] at h
    · have h1' : (dropTrailingWs cs).isEmpty = false := by
        simpa [Bool.not_eq_true] using h1
      simp [h1'] at h

theorem splitWsAux_all_ws (s : List Char)
    (h : ∀ c ∈ s, pyIsSpace c) : splitWsAux s [] = [] := by
  induction s with
  | nil => rfl
  | cons c cs ih =>
    have hc : pyIsSpace c := h c (List.mem_cons_self c cs)
    simp only [splitWsAux, hc, if_true, List.isEmpty_nil]
    exact ih (fun x hx => h x (List.mem_cons_of_mem c hx))

theorem splitWsAux_length_dropTrailingWs (s : List Char) :
    ∀ acc : List Char,
    (splitWsAux (dropTrailingWs s) acc).length = (splitWsAux s acc).length := by
  induction s with
  | nil => intro acc; rfl
  | cons c cs ih =>
    intro acc
    unfold dropTrailingWs
    by_cases h1 : (dropTrailingWs cs).isEmpty = true
    · by_cases h2 : pyIsSpace c = true
      · have hall : ∀ x ∈ cs, pyIsSpace x :=
          all_ws_of_dropTrailingWs_eq_nil cs (List.isEmpty_iff.mp h1)
        have hnil : splitWsAux cs [] = [] := splitWsAux_all_ws cs hall
        simp only [h1, h2, Bool.and_self, if_true]
        by_cases hacc : acc.isEmpty = true
        · simp [splitWsAux, h2, hnil, hacc]
        · have hacc' : acc.isEmpty = false := by
            simpa [Bool.not_eq_true] using hacc
          simp [splitWsAux, h2, hnil, hacc']
      · have h2' : pyIsSpace c = false := by simpa [Bool.not_eq_true] using h2
        simp only [h2', Bool.and_false, Bool.false_eq_true, if_false]
        simp only [splitWsAux, h2', Bool.false_eq_true, if_false]
        exact ih (c :: acc)
    · have h1' : (dropTrailingWs cs).isEmpty = false := by
        simpa [Bool.not_eq_true] using h1
      simp only [h1', Bool.false_and, Bool.false_eq_true, if_false]
      by_cases h2 : pyIsSpace c = true
      · by_cases hacc : acc.isEmpty = true
        · simp [splitWsAux, h2, hacc, ih []]
        · have hacc' : acc.isEmpty = false := by
            simpa [Bool.not_eq_true] using hacc
          simp [splitWsAux, h2, hacc', ih []]
      · have h2' : pyIsSpace c = false := by simpa [Bool.not_eq_true] using h2
        simp only [splitWsAux, h2', Bool.false_eq_true, if_false]
        exact ih (c :: acc)

theorem mem_of_mem_dropTrailingWs {a : Char} (s : List Char)
    (h : a ∈ dropTrailingWs s) : a ∈ s := by
  induction s with
  | nil => simp [dropTrailingWs] at h
  | cons c cs ih =>
    unfold dropTrailingWs at h
    by_cases hc : ((dropTrailingWs cs).isEmpty && pyIsSpace c) = true
    · rw [if_pos hc] at h
      exact absurd h (List.not_mem_nil a)
    · rw [if_neg hc] at h
      rcases List.mem_cons.mp h with h | h
      · exact h ▸ List.mem_cons_self c cs
      · exact List.mem_cons_of_mem c (ih h)

/-- The length of the token list computed by the classifier on the lowered,
stripped text equals the token count of the raw text. -/
theorem splitWs_stripL_lowerL_length (s : List Char) :
    (splitWs (stripL (lowerL s))).length = (splitWs s).length := by
  unfold splitWs stripL
  rw [splitWsAux_length_dropTrailingWs]
  rw [splitWsAux_dropWhile_ws]
  exact splitWsAux_length_map_lowerChar s [] [] rfl

/-- Digit-freeness transports from the raw text to the lowered, stripped
text inspected by the classifier. -/
theorem no_digit_stripL_lowerL (s : List Char)
    (h : ∀ c ∈ s, ¬ pyIsDigit c = true) :
    (stripL (lowerL s)).any pyIsDigit = false := by
  rw [List.any_eq_false]
  intro a ha
  have ha2 : a ∈ (lowerL s).dropWhile pyIsSpace :=
    mem_of_mem_dropTrailingWs _ ha
  have ha3 : a ∈ lowerL s := (List.dropWhile_sublist _).mem ha2
  rcases List.mem_map.mp ha3 with ⟨b, hb, hab⟩
  rw [← hab, pyIsDigit_lowerChar]
  exact h b hb

/-- The Python slice `l[-n:]`: the last `n` entries of `l` (all of `l` when
it is shorter than `n`). -/
def takeLast {α : Type} (n : Nat) (l : List α) : List α := l.drop (l.length - n)

theorem length_takeLast {α : Type} (n : Nat) (l : List α) :
    (takeLast n l).length ≤ n := by
  simp only [takeLast, List.length_drop]
  omega

theorem takeLast_of_length_le {α : Type} (n : Nat) (l : List α)
    (h : l.length ≤ n) : takeLast n l = l := by
  unfold takeLast
  have h0 : l.length - n = 0 := by omega
  rw [h0, List.drop_zero]

theorem takeLast_append_of_le {α : Type} (n : Nat) (l m : List α)
    (h : n ≤ l.length) :
    takeLast n (l ++ m) = (l.drop (l.length - n) ++ m).drop m.length := by
  unfold takeLast
  have hdecomp : l ++ m = l.take (l.length - n) ++ (l.drop (l.length - n) ++ m) := by
    rw [← List.append_assoc, List.take_append_drop]
  have htk : (l.take (l.length - n)).length = l.length - n := by
    rw [List.length_take]; omega
  have harith : (l ++ m).length - n =
      (l.take (l.length - n)).length + m.length := by
    rw [htk, List.length_append]; omega
  rw [harith, hdecomp]
  rw [List.drop_append]

theorem takeLast_absorb {α : Type} (n : Nat) (l m : List α) :
    takeLast n (takeLast n l ++ m) = takeLast n (l ++ m) := by
  by_cases hn : l.length ≤ n
  · rw [takeLast_of_length_le n l hn]
  · have hn' : n ≤ l.length := by omega
    rw [takeLast_append_of_le n l m hn']
    show takeLast n (l.drop (l.length - n) ++ m) = _
    have hlen : (l.drop (l.length - n)).length = n := by
      rw [List.length_drop]; omega
    rw [takeLast_append_of_le n (l.drop (l.length - n)) m (by omega)]
    rw [hlen]
    have h0 : n - n = 0 := by omega
    rw [h0, List.drop_zero]

theorem add_to_history_eq_takeLast (h : List Turn) (r c t : String)
    (hh : h.length ≤ MAX_CONVERSATION_HISTORY * 2) :
    add_to_history h r c t =
      takeLast (MAX_CONVERSATION_HISTORY * 2) (h ++ [⟨r, c, t⟩]) := by
  unfold add_to_history
  by_cases hl :
      (h ++ [(⟨r, c, t⟩ : Turn)]).length > MAX_CONVERSATION_HISTORY * 2
  · rw [if_pos hl]; rfl
  · rw [if_neg hl]
    exact (takeLast_of_length_le _ _ (by omega)).symm

theorem length_add_to_history_le (h : List Turn) (r c t : String)
    (hh : h.length ≤ MAX_CONVERSATION_HISTORY * 2) :
    (add_to_history h r c t).length ≤ MAX_CONVERSATION_HISTORY * 2 := by
  rw [add_to_history_eq_takeLast h r c t hh]
  exact length_takeLast _ _

/-- A turn record built from a `(role, content, timestamp)` triple. -/
def mkTurn (m : String × String × String) : Turn := ⟨m.1, m.2.1, m.2.2⟩

/-- A finite sequence of `add_to_history` calls against an initial
conversation history. -/
def runAppends (h : List Turn) (msgs : List (String × String × String)) :
    List Turn :=
  msgs.foldl (fun acc m => add_to_history acc m.1 m.2.1 m.2.2) h

theorem runAppends_eq_takeLast (msgs : List (String × String × String)) :
    ∀ h : List Turn, h.length ≤ MAX_CONVERSATION_HISTORY * 2 →
    runAppends h msgs =
      takeLast (MAX_CONVERSATION_HISTORY * 2) (h ++ msgs.map mkTurn) := by
  induction msgs with
  | nil =>
    intro h hh
    show h = takeLast (MAX_CONVERSATION_HISTORY * 2) (h ++ [])
    rw [List.append_nil]
    exact (takeLast_of_length_le _ _ hh).symm
  | cons m ms ih =>
    intro h hh
    show runAppends (add_to_history h m.1 m.2.1 m.2.2) ms = _
    rw [ih _ (length_add_to_history_le h m.1 m.2.1 m.2.2 hh)]
    rw [add_to_history_eq_takeLast h m.1 m.2.1 m.2.2 hh]
    rw [takeLast_absorb]
    rw [List.append_assoc]
    rfl

theorem getLast?_drop_of_lt {α : Type} (l : List α) (k : Nat)
    (hk : k < l.length) : (l.drop k).getLast? = l.getLast? := by
  induction l generalizing k with
  | nil => simp at hk
  | cons a as ih =>
    cases k with
    | zero => rw [List.drop_zero]
    | succ k =>
      have hk' : k < as.length := by simpa using hk
      have hne : as ≠ [] := by
        intro hnil; rw [hnil] at hk'; simp at hk'
      rw [List.drop_succ_cons, ih k hk']
      cases as with
      | nil => exact absurd rfl hne
      | cons b bs => rw [List.getLast?_cons_cons]

/-- The turn appended by `add_to_history` is always the last entry of the
resulting history, also when the eviction branch fires. -/
theorem getLast?_add_to_history (h : List Turn) (r c t : String) :
    (add_to_history h r c t).getLast? = some ⟨r, c, t⟩ := by
  unfold add_to_history
  by_cases hl :
      (h ++ [(⟨r, c, t⟩ : Turn)]).length > MAX_CONVERSATION_HISTORY * 2
  · rw [if_pos hl]
    have hm : 0 < MAX_CONVERSATION_HISTORY * 2 := by decide
    have hlt : (h ++ [(⟨r, c, t⟩ : Turn)]).length - MAX_CONVERSATION_HISTORY * 2
        < (h ++ [(⟨r, c, t⟩ : Turn)]).length := Nat.sub_lt (by omega) hm
    rw [getLast?_drop_of_lt _ _ hlt]
    exact List.getLast?_concat _
  · rw [if_neg hl]
    exact List.getLast?_concat _

theorem lookup_map_overwrite (d : List (String × Nat)) (k : String) (v : Nat)
    (hany : d.any (fun p => p.1 == k) = true) :
    (d.map (fun p => if p.1 == k then (k, v) else p)).lookup k = some v := by
  induction d with
  | nil => simp at hany
  | cons p ps ih =>
    obtain ⟨a, b⟩ := p
    rw [List.any_cons] at hany
    rw [List.map_cons]
    by_cases hp : (a == k) = true
    · have hhead : (if ((a, b).1 == k) = true then ((k, v) : String × Nat)
          else (a, b)) = (k, v) := by
        simp [hp]
      rw [hhead]
      exact List.lookup_cons_self
    · have hp' : (a == k) = false := by simpa [Bool.not_eq_true] using hp
      have hhead : (if ((a, b).1 == k) = true then ((k, v) : String × Nat)
          else (a, b)) = (a, b) := by
        simp [hp']
      rw [hhead]
      have hk : (k == a) = false := by
        rw [beq_eq_false_iff_ne] at hp' ⊢
        exact fun hkp => hp' hkp.symm
      rw [List.lookup_cons, hk]
      have hany' : ps.any (fun p => p.1 == k) = true := by
        simp only [hp', Bool.false_or] at hany
        exact hany
      exact ih hany'

theorem lookup_append_new (d : List (String × Nat)) (k : String) (v : Nat)
    (hany : d.any (fun p => p.1 == k) = false) :
    (d ++ [(k, v)]).lookup k = some v := by
  induction d with
  | nil =>
    rw [List.nil_append]
    exact List.lookup_cons_self
  | cons p ps ih =>
    obtain ⟨a, b⟩ := p
    rw [List.any_cons] at hany
    rw [Bool.or_eq_false_iff] at hany
    have hk : (k == a) = false := by
      have ha : (a == k) = false := hany.1
      rw [beq_eq_false_iff_ne] at ha ⊢
      exact fun hkp => ha hkp.symm
    rw [List.cons_append, List.lookup_cons, hk]
    exact ih hany.2

/-- Dict assignment always leaves the assigned key bound to exactly the new
value. -/
theorem lookup_insertEntry (d : List (String × Nat)) (k : String) (v : Nat) :
    (insertEntry d k v).lookup k = some v := by
  unfold insertEntry
  by_cases hany : d.any (fun p => p.1 == k) = true
  · rw [if_pos hany]
    exact lookup_map_overwrite d k v hany
  · have hany' : d.any (fun p => p.1 == k) = false :=
      (Bool.not_eq_true _) ▸ hany
    rw [hany']
    simp only [Bool.false_eq_true, if_false]
    exact lookup_append_new d k v hany'

-- ============== CONCRETE FIXTURES FOR EVALUATION WITNESSES ==============

/-- A concrete boundary environment: identity splitter, no Ollama backend,
empty search results, character-count/4 tokenizer. -/
def envId : Env :=
  { split := fun ds => ds,
    ollama := none,
    now := "2026-01-01T00:00:00",
    search := fun _ _ _ => [],
    tok := fun s => s.length / 4,
    latency_ms := 0,
    model_name := "llama3.2",
    fmtScore := fun _ => "0.00" }

/-- A second concrete environment, differing from `envId` in every
boundary. -/
def envAlt : Env :=
  { split := fun _ => [],
    ollama := none,
    now := "2027-12-31T23:59:59",
    search := fun chunks _ _ => chunks.map (fun d => (d, (1 : Rat))),
    tok := fun _ => 42,
    latency_ms := 7,
    model_name := "other-model",
    fmtScore := fun _ => "1.00" }

/-- The empty initial state: all globals as at module load. -/
def stEmpty : RagState :=
  { vector_store := none, retriever := false, llm := none,
    conversation_history := [], uploaded_documents := [] }

def docA : Doc :=
  { page_content := "Alpha beta gamma.", page := 0, source := "a.pdf",
    filename := "a.pdf", upload_time := "2026-01-01T00:00:00" }

/-- A state with one ingested chunk and a registry entry for `a.pdf`,
no LLM configured. -/
def stDocs : RagState :=
  { vector_store := some [docA], retriever := true, llm := none,
    conversation_history := [], uploaded_documents := [("a.pdf", 3)] }

/-- Like `stDocs` but with an LLM whose invocation always raises with
message `boom`. -/
def stErrLLM : RagState :=
  { stDocs with llm := some (fun _ => Except.error "boom") }

/-- Like `stDocs` but with an LLM whose invocation raises an exception that
renders to the empty string (as Python `str(Exception())` does). -/
def stEmptyErr : RagState :=
  { stDocs with llm := some (fun _ => Except.error "") }

-- ============== CLAIM THEOREMS ==============

/-- Claim C1: for every document whose extraction yields zero non-empty
page segments, `ingest_pdf` fails with the `ValueError` message and returns
the state unchanged — neither the vector index nor the uploaded-file
registry is mutated. -/
theorem C1_zero_extraction_fails_without_mutation (env : Env) (st : RagState)
    (file_path : String) (pages : Option (List String))
    (h : load_pdf_with_pymupdf pages file_path env.now = []) :
    ingest_pdf env st file_path pages =
      (st, Except.error
        "Could not extract text from PDF. The file may be empty or corrupted.") := by
  simp [ingest_pdf, h]

/-- Evaluation witness for C1: a two-page document whose pages are both
whitespace-only. -/
theorem C1_witness :
    load_pdf_with_pymupdf (some ["", "   "]) "docs/a.pdf" envId.now = [] ∧
    ingest_pdf envId stEmpty "docs/a.pdf" (some ["", "   "]) =
      (stEmpty, Except.error
        "Could not extract text from PDF. The file may be empty or corrupted.") :=
  ⟨rfl, C1_zero_extraction_fails_without_mutation envId stEmpty "docs/a.pdf"
    (some ["", "   "]) rfl⟩

/-- Claim C2: starting from any history of length at most
`2 * MAX_CONVERSATION_HISTORY = 20`, any sequence of appends keeps the
length at most 20, and the retained entries are exactly the most recent 20
of the appended stream, in order (oldest evicted first). -/
theorem C2_history_bounded_fifo (h : List Turn)
    (msgs : List (String × String × String))
    (hh : h.length ≤ MAX_CONVERSATION_HISTORY * 2) :
    (runAppends h msgs).length ≤ MAX_CONVERSATION_HISTORY * 2 ∧
    runAppends h msgs =
      takeLast (MAX_CONVERSATION_HISTORY * 2) (h ++ msgs.map mkTurn) := by
  have he := runAppends_eq_takeLast msgs h hh
  exact ⟨he ▸ length_takeLast _ _, he⟩

/-- Evaluation witness for C2: two appends against the empty history. -/
theorem C2_witness :
    (runAppends [] [("user", "q1", "t1"), ("assistant", "a1", "t2")]).length
        ≤ MAX_CONVERSATION_HISTORY * 2 ∧
    runAppends [] [("user", "q1", "t1"), ("assistant", "a1", "t2")] =
      takeLast (MAX_CONVERSATION_HISTORY * 2)
        ([] ++ [("user", "q1", "t1"), ("assistant", "a1", "t2")].map mkTurn) :=
  C2_history_bounded_fifo [] [("user", "q1", "t1"), ("assistant", "a1", "t2")]
    (by decide)

/-- Claim C3: a non-casual question against the uninitialized index returns
the fixed guidance message with confidence 0 and empty citations, leaves
the state untouched, and never queries the index. -/
theorem C3_uninitialized_guidance (env : Env) (st : RagState)
    (question : String) (filter_filename : Option String) (use_history : Bool)
    (hcas : is_greeting_or_casual question = false)
    (hvs : st.vector_store = none) :
    get_answer env st question filter_filename use_history =
      { answer := upload_first_msg, citations := [],
        metadata := { Metadata.base with
          confidence := some 0, tokens_used := some 0, latency_ms := some 0 },
        state := st, queried_index := false } := by
  unfold get_answer
  rw [hcas]
  simp [hvs]

/-- Evaluation witness for C3. -/
theorem C3_witness :
    is_greeting_or_casual "What is the capital of France?" = false ∧
    stEmpty.vector_store = none ∧
    get_answer envId stEmpty "What is the capital of France?" none true =
      { answer := upload_first_msg, citations := [],
        metadata := { Metadata.base with
          confidence := some 0, tokens_used := some 0, latency_ms := some 0 },
        state := stEmpty, queried_index := false } :=
  ⟨by decide, rfl,
    C3_uninitialized_guidance envId stEmpty "What is the capital of France?"
      none true (by decide) rfl⟩

/-- Counterexample to claim C4 as stated: on the uninitialized-index path a
non-casual question is answered, yet no conversation turn at all is
recorded — the history is still empty after the call, so the returned
answer was not appended as an assistant turn. -/
theorem C4_counterexample :
    is_greeting_or_casual "What is the capital of France?" = false ∧
    stEmpty.vector_store = none ∧
    stEmpty.conversation_history = [] ∧
    (get_answer envId stEmpty "What is the capital of France?" none true).answer
      = upload_first_msg ∧
    (get_answer envId stEmpty "What is the capital of France?" none
        true).state.conversation_history = [] :=
  ⟨by decide, rfl, rfl, rfl, rfl⟩

/-- Claim C4 as amended: for every non-casual call with an initialized
vector store (covering the no-LLM fallback, successful-LLM and LLM-failure
paths), the returned answer is the last conversation-history entry, as an
assistant turn; the uninitialized-index path records no turn. -/
theorem C4_amended_assistant_turn_recorded (env : Env) (st : RagState)
    (question : String) (filter_filename : Option String) (use_history : Bool)
    (ds : List Doc)
    (hcas : is_greeting_or_casual question = false)
    (hvs : st.vector_store = some ds) :
    ((get_answer env st question filter_filename
        use_history).state.conversation_history).getLast? =
      some ⟨"assistant",
        (get_answer env st question filter_filename use_history).answer,
        env.now⟩ := by
  unfold get_answer
  rw [hcas]
  simp only [Bool.false_eq_true, if_false, hvs, Option.isNone_some]
  split
  · simp only []
    exact getLast?_add_to_history _ _ _ _
  · split
    · simp only []
      exact getLast?_add_to_history _ _ _ _
    · simp only []
      exact getLast?_add_to_history _ _ _ _

/-- Evaluation witness for the amended C4, on the no-LLM fallback path. -/
theorem C4_amended_witness :
    is_greeting_or_casual "What is the capital of France?" = false ∧
    stDocs.vector_store = some [docA] ∧
    ((get_answer envId stDocs "What is the capital of France?" none
        true).state.conversation_history).getLast? =
      some ⟨"assistant",
        (get_answer envId stDocs "What is the capital of France?" none
          true).answer, envId.now⟩ :=
  ⟨by decide, rfl,
    C4_amended_assistant_turn_recorded envId stDocs
      "What is the capital of France?" none true [docA] (by decide) rfl⟩

/-- Claim C5: any input with at most 2 whitespace-separated tokens and no
digit character is classified casual. -/
theorem C5_short_no_digit_is_casual (text : String)
    (h1 : (splitWs text.data).length ≤ 2)
    (h2 : text.data.any pyIsDigit = false) :
    is_greeting_or_casual text = true := by
  unfold is_greeting_or_casual
  have hlen : (splitWs (stripL (lowerL text.data))).length ≤ 2 := by
    rw [splitWs_stripL_lowerL_length]; exact h1
  have hdig : (stripL (lowerL text.data)).any pyIsDigit = false :=
    no_digit_stripL_lowerL text.data (List.any_eq_false.mp h2)
  simp [decide_eq_true hlen, hdig]

/-- Evaluation witness for C5: a two-token, digit-free message that matches
no greeting or casual pattern. -/
theorem C5_witness :
    (splitWs "ok then".data).length ≤ 2 ∧
    "ok then".data.any pyIsDigit = false ∧
    is_greeting_or_casual "ok then" = true :=
  ⟨by decide, by decide,
    C5_short_no_digit_is_casual "ok then" (by decide) (by decide)⟩

/-- Counterexample to claim C6 as stated: an LLM invocation raising an
exception whose rendering `str(e)` is empty makes `get_answer` attach the
empty string as the metadata error, so the call does not attach a non-empty
error string. -/
theorem C6_counterexample :
    is_greeting_or_casual "What is the capital of France?" = false ∧
    stEmptyErr.vector_store = some [docA] ∧
    stEmptyErr.llm = some (fun _ => Except.error "") ∧
    (get_answer envId stEmptyErr "What is the capital of France?" none
        true).metadata.error = some "" :=
  ⟨by decide, rfl, rfl, rfl⟩

/-- Claim C6 as amended: when the LLM invocation raises, the exception is
never propagated: `get_answer` returns the truncated-context fallback
answer, attaches the exception's rendering `str(e)` verbatim as the
metadata error string — non-empty exactly when `str(e)` is non-empty — and
still records the answer as an assistant conversation turn. -/
theorem C6_llm_failure_degrades (env : Env) (st : RagState) (question : String)
    (filter_filename : Option String) (use_history : Bool)
    (ds : List Doc) (e : String)
    (hcas : is_greeting_or_casual question = false)
    (hvs : st.vector_store = some ds)
    (hllm : st.llm = some (fun _ => Except.error e)) :
    (get_answer env st question filter_filename use_history).answer =
      fallback_answer (format_docs
        (retrieve_with_scores env st question filter_filename).1) ∧
    (get_answer env st question filter_filename use_history).metadata.error
      = some e ∧
    (e ≠ "" →
      (get_answer env st question filter_filename use_history).metadata.error
        ≠ some "") ∧
    ((get_answer env st question filter_filename
        use_history).state.conversation_history).getLast? =
      some ⟨"assistant",
        (get_answer env st question filter_filename use_history).answer,
        env.now⟩ := by
  unfold get_answer
  rw [hcas]
  simp only [Bool.false_eq_true, if_false, hvs, Option.isNone_some, hllm]
  simp [getLast?_add_to_history]

/-- Evaluation witness for the amended C6, with an LLM raising `boom`. -/
theorem C6_witness :
    is_greeting_or_casual "What is the capital of France?" = false ∧
    stErrLLM.vector_store = some [docA] ∧
    stErrLLM.llm = some (fun _ => Except.error "boom") ∧
    (get_answer envId stErrLLM "What is the capital of France?" none
        true).answer =
      fallback_answer (format_docs
        (retrieve_with_scores envId stErrLLM "What is the capital of France?"
          none).1) ∧
    (get_answer envId stErrLLM "What is the capital of France?" none
        true).metadata.error = some "boom" ∧
    (get_answer envId stErrLLM "What is the capital of France?" none
        true).metadata.error ≠ some "" ∧
    ((get_answer envId stErrLLM "What is the capital of France?" none
        true).state.conversation_history).getLast? =
      some ⟨"assistant",
        (get_answer envId stErrLLM "What is the capital of France?" none
          true).answer, envId.now⟩ := by
  have h := C6_llm_failure_degrades envId stErrLLM
    "What is the capital of France?" none true [docA] "boom"
    (by decide) rfl rfl
  exact ⟨by decide, rfl, rfl, h.1, h.2.1, h.2.2.1 (by decide), h.2.2.2⟩

/-- Claim C7: re-ingesting a filename already present in the registry
appends the new batch to the existing vector store without removing the
previous chunks, and overwrites the registry entry with only the new
batch's chunk count. -/
theorem C7_reingest_appends_and_overwrites (env : Env) (st : RagState)
    (file_path : String) (pages : Option (List String))
    (old : List Doc) (oldCount : Nat)
    (hvs : st.vector_store = some old)
    (hreg : st.uploaded_documents.lookup (basename file_path) = some oldCount)
    (hne : load_pdf_with_pymupdf pages file_path env.now ≠ []) :
    (ingest_pdf env st file_path pages).2 =
      Except.ok (env.split (load_pdf_with_pymupdf pages file_path env.now)).length ∧
    (ingest_pdf env st file_path pages).1.vector_store =
      some (old ++ env.split (load_pdf_with_pymupdf pages file_path env.now)) ∧
    (ingest_pdf env st file_path pages).1.uploaded_documents.lookup
        (basename file_path) =
      some (env.split (load_pdf_with_pymupdf pages file_path env.now)).length := by
  have hni : (load_pdf_with_pymupdf pages file_path env.now).isEmpty = false := by
    cases hl : load_pdf_with_pymupdf pages file_path env.now
    · exact absurd hl hne
    · rfl
  refine ⟨?_, ?_, ?_⟩
  · simp [ingest_pdf, hni]
  · simp [ingest_pdf, hni, hvs]
  · simp only [ingest_pdf, hni, Bool.false_eq_true, if_false]
    exact lookup_insertEntry _ _ _

/-- Evaluation witness for C7: re-ingesting `a.pdf` (registered with count
3) with a one-page document; the new registry count is 1, not 4. -/
theorem C7_witness :
    stDocs.vector_store = some [docA] ∧
    stDocs.uploaded_documents.lookup (basename "a.pdf") = some 3 ∧
    load_pdf_with_pymupdf (some ["New text."]) "a.pdf" envId.now ≠ [] ∧
    (ingest_pdf envId stDocs "a.pdf" (some ["New text."])).2 =
      Except.ok (envId.split
        (load_pdf_with_pymupdf (some ["New text."]) "a.pdf" envId.now)).length ∧
    (ingest_pdf envId stDocs "a.pdf" (some ["New text."])).1.vector_store =
      some ([docA] ++ envId.split
        (load_pdf_with_pymupdf (some ["New text."]) "a.pdf" envId.now)) ∧
    (ingest_pdf envId stDocs "a.pdf" (some ["New text."])).1.uploaded_documents.lookup
        (basename "a.pdf") =
      some (envId.split
        (load_pdf_with_pymupdf (some ["New text."]) "a.pdf" envId.now)).length := by
  have h := C7_reingest_appends_and_overwrites envId stDocs "a.pdf"
    (some ["New text."]) [docA] 3 rfl (by decide) (by decide)
  exact ⟨rfl, by decide, by decide, h.1, h.2.1, h.2.2⟩

/-- Claim C8: knowledge-base reset leaves the index uninitialized, the
registry empty and the conversation history empty, returns success, and is
idempotent — a second call immediately afterwards succeeds and produces the
identical empty state. -/
theorem C8_clear_idempotent_and_empty (st : RagState) :
    (clear_knowledge_base st).1.vector_store = none ∧
    (clear_knowledge_base st).1.uploaded_documents = [] ∧
    (clear_knowledge_base st).1.conversation_history = [] ∧
    (clear_knowledge_base st).2 = true ∧
    clear_knowledge_base (clear_knowledge_base st).1 = clear_knowledge_base st :=
  ⟨rfl, rfl, rfl, rfl, rfl⟩

/-- Claim C9: casual classification and canned-response selection depend
only on the input text — two calls with the same question but arbitrary
different environments, states, filters and history flags return the same
canned answer, namely `get_friendly_response question`. -/
theorem C9_casual_answer_pure (question : String)
    (envA envB : Env) (sA sB : RagState)
    (fA fB : Option String) (uA uB : Bool)
    (hcas : is_greeting_or_casual question = true) :
    (get_answer envA sA question fA uA).answer = get_friendly_response question ∧
    (get_answer envB sB question fB uB).answer = get_friendly_response question := by
  constructor <;> simp [get_answer, hcas]

/-- Evaluation witness for C9: the greeting `hi` against two different
environments and states. -/
theorem C9_witness :
    is_greeting_or_casual "hi" = true ∧
    (get_answer envId stEmpty "hi" none true).answer =
      get_friendly_response "hi" ∧
    (get_answer envAlt stErrLLM "hi" (some "a.pdf") false).answer =
      get_friendly_response "hi" :=
  ⟨by decide,
    (C9_casual_answer_pure "hi" envId envAlt stEmpty stErrLLM none
      (some "a.pdf") true false (by decide)).1,
    (C9_casual_answer_pure "hi" envId envAlt stEmpty stErrLLM none
      (some "a.pdf") true false (by decide)).2⟩

/-- Claim C10: knowledge-base reset clears the vector store, retriever,
registry and conversation history but leaves the LLM handle exactly as it
was, so a configured LLM is still configured after the reset. -/
theorem C10_clear_preserves_llm (st : RagState) :
    (clear_knowledge_base st).1.llm = st.llm ∧
    (clear_knowledge_base st).1.llm.isSome = st.llm.isSome ∧
    (clear_knowledge_base st).1.vector_store = none ∧
    (clear_knowledge_base st).1.retriever = false ∧
    (clear_knowledge_base st).1.uploaded_documents = [] ∧
    (clear_knowledge_base st).1.conversation_history = [] :=
  ⟨rfl, rfl, rfl, rfl, rfl, rfl⟩

end Rag
